import Mathlib

/-!
Shallow embedding of the subscription-state reconciliation subsystem of the
scripture-chat repository: the entitlement fields of the `User` model
(`src/backend/models/User.js`), the quota-gate check `canAskQuestion`, the
mutation method `updateSubscription`, the Stripe webhook handlers and the
synchronous fallback endpoints (`src/backend/utils/email.js`).

Modelling conventions:
- Mongo documents become Lean structures; a collection is a `List User`;
  `findOne` is `List.find?`; `save` replaces the matching document in the list.
- JavaScript `undefined`/`null` fields become `Option`; JS truthiness of a
  string is `some s` with `s ≠ ""`, of a number `some n` with `n ≠ 0`.
- Dates are modelled at calendar-day granularity as a `Nat` day index (the
  only use in the quota gate is the year/month/day comparison `isSameDay`
  and `getNextMidnight`, which is the start of day `today + 1`).
- `currentPeriodEnd` is stored in milliseconds, as `new Date(n * 1000)` in
  the source (`updateSubscription`).
-/

namespace ScriptureChat

/-- JS truthiness of an optional string field (`undefined`, `null` and `""`
are falsy). -/
def truthyS : Option String → Bool
  | none => false
  | some s => s ≠ ""

/-- JS truthiness of an optional numeric field (`undefined`, `null` and `0`
are falsy). -/
def truthyN : Option Nat → Bool
  | none => false
  | some n => n ≠ 0

/-- The `subscription` subdocument of the `User` schema:
`status` (enum free/premium/cancelled, default free), `stripeCustomerId`,
`stripeSubscriptionId`, `currentPeriodEnd`. -/
structure SubscriptionInfo where
  status : String
  stripeCustomerId : Option String
  stripeSubscriptionId : Option String
  currentPeriodEnd : Option Nat
  deriving Repr, DecidableEq

/-- The `usage` subdocument of the `User` schema: `questionsToday`,
`lastQuestionDate` (a calendar day, `null` initially), `totalQuestions`. -/
structure UsageInfo where
  questionsToday : Nat
  lastQuestionDate : Option Nat
  totalQuestions : Nat
  deriving Repr, DecidableEq

/-- The entitlement-relevant part of a `User` document. -/
structure User where
  id : String
  email : String
  subscription : SubscriptionInfo
  usage : UsageInfo
  deriving Repr, DecidableEq

/-- Result of `canAskQuestion`: `remaining` is `Infinity` for premium users
and a number otherwise. -/
inductive Remaining
  | unbounded
  | fin (n : Nat)
  deriving Repr, DecidableEq

/-- The `{ canAsk, remaining, resetTime }` object returned by
`canAskQuestion`; `resetTime` is `null` for premium users and the next
local midnight (start of day `today + 1`) otherwise. -/
structure AskResult where
  canAsk : Bool
  remaining : Remaining
  resetTime : Option Nat
  deriving Repr, DecidableEq

/-- `userSchema.methods.canAskQuestion` (src/backend/models/User.js).
`freeLimit` is `parseInt(process.env.FREE_TIER_DAILY_LIMIT) || 5`; `today`
is the server's current calendar day. -/
def canAskQuestion (u : User) (freeLimit : Nat) (today : Nat) : AskResult :=
  if u.subscription.status = "premium" then
    { canAsk := true, remaining := .unbounded, resetTime := none }
  else
    match u.usage.lastQuestionDate with
    | none =>
      { canAsk := true, remaining := .fin freeLimit, resetTime := some (today + 1) }
    | some d =>
      if d = today then
        let remaining := freeLimit - u.usage.questionsToday
        { canAsk := remaining > 0, remaining := .fin remaining,
          resetTime := some (today + 1) }
      else
        { canAsk := true, remaining := .fin freeLimit, resetTime := some (today + 1) }

/-- The `stripeData` argument of `updateSubscription`. -/
structure StripeData where
  customerId : Option String := none
  subscriptionId : Option String := none
  currentPeriodEnd : Option Nat := none
  deriving Repr, DecidableEq

/-- `userSchema.methods.updateSubscription` (src/backend/models/User.js):
sets `subscription.status` unconditionally and overwrites each of
`stripeCustomerId`, `stripeSubscriptionId`, `currentPeriodEnd` only when the
supplied value is truthy; then saves. `currentPeriodEnd` is stored as
`new Date(n * 1000)`, i.e. milliseconds. -/
def updateSubscription (u : User) (status : String) (d : StripeData) : User :=
  { u with subscription :=
    { status := status
      stripeCustomerId :=
        if truthyS d.customerId then d.customerId else u.subscription.stripeCustomerId
      stripeSubscriptionId :=
        if truthyS d.subscriptionId then d.subscriptionId else u.subscription.stripeSubscriptionId
      currentPeriodEnd :=
        if truthyN d.currentPeriodEnd then d.currentPeriodEnd.map (· * 1000)
        else u.subscription.currentPeriodEnd } }

/-! ## Stripe provider model (external collaborator, data only) -/

/-- A Stripe customer object: `id`, `email`, `metadata.userId`. -/
structure Customer where
  id : String
  email : String
  metadataUserId : Option String
  deriving Repr, DecidableEq

/-- A Stripe subscription object: `id`, `customer`, `status`,
`current_period_end` (epoch seconds). -/
structure StripeSub where
  id : String
  customer : String
  status : String
  current_period_end : Nat
  deriving Repr, DecidableEq

/-- The `subscription` field of a retrieved checkout session: either a bare
id string or (when expanded) the full subscription object. -/
inductive SubRef
  | strId (s : String)
  | obj (s : StripeSub)
  deriving Repr, DecidableEq

/-- A Stripe checkout session as retrieved by `/verify-session`:
`metadata.userId`, `customer`, `payment_status`, `subscription`. -/
structure CheckoutSession where
  id : String
  metadataUserId : Option String
  customer : Option String
  payment_status : String
  subscription : Option SubRef
  deriving Repr, DecidableEq

/-- The external billing provider's state, read through
`stripe.customers.retrieve/list`, `stripe.subscriptions.list`,
`stripe.checkout.sessions.retrieve`. -/
structure Provider where
  customers : List Customer
  subs : List StripeSub
  sessions : List CheckoutSession
  deriving Repr, DecidableEq

/-- `stripe.customers.retrieve(cid)`; `none` models the thrown error for an
unknown id. -/
def retrieveCustomer (p : Provider) (cid : String) : Option Customer :=
  p.customers.find? (fun c => c.id == cid)

/-- `stripe.customers.list({ email, limit: 1 })` — first customer with the
given email. -/
def listCustomersByEmail (p : Provider) (email : String) : Option Customer :=
  p.customers.find? (fun c => c.email == email)

/-- `stripe.subscriptions.list({ customer, status, limit: 1 })` — first
subscription of the customer with the given status. -/
def listSubsByStatus (p : Provider) (cid status : String) : Option StripeSub :=
  p.subs.find? (fun s => s.customer == cid && s.status == status)

/-- `stripe.checkout.sessions.retrieve(sessionId)`; `none` models the thrown
error for an unknown id. -/
def retrieveSession (p : Provider) (sid : String) : Option CheckoutSession :=
  p.sessions.find? (fun s => s.id == sid)

/-! ## User collection operations -/

/-- `User.findById(uid)` on the collection. -/
def findById (users : List User) (uid : String) : Option User :=
  users.find? (fun u => u.id == uid)

/-- `User.findOne({'subscription.stripeCustomerId': c})`. `c = none` (a JS
`undefined` query value) is modelled as matching documents whose field is
absent. -/
def findByCustomerId (users : List User) (c : Option String) : Option User :=
  users.find? (fun u => u.subscription.stripeCustomerId == c)

/-- `User.findOne({'subscription.stripeSubscriptionId': s})`. -/
def findBySubscriptionId (users : List User) (s : Option String) : Option User :=
  users.find? (fun u => u.subscription.stripeSubscriptionId == s)

/-- `await user.save()`: write the document back into the collection,
replacing the document(s) with the same `_id`. -/
def saveUser (users : List User) (w : User) : List User :=
  users.map (fun v => if v.id == w.id then w else v)

/-! ## Webhook event envelope and handlers -/

/-- The `data.object` payload of a webhook event, one permissive record for
the dynamically-typed JS object: checkout sessions use `metadataUserId`,
`customer`, `subscription`; subscription events use `metadataUserId`,
`customer`, `id`, `status`, `current_period_end`; invoices use
`subscription`. Absent fields are `none` (JS `undefined`). -/
structure EventObject where
  metadataUserId : Option String := none
  customer : Option String := none
  subscription : Option String := none
  payment_status : Option String := none
  id : Option String := none
  status : Option String := none
  current_period_end : Option Nat := none
  deriving Repr, DecidableEq

/-- A webhook event envelope `{type, data: {object}}`. -/
structure Event where
  type : String
  object : EventObject
  deriving Repr, DecidableEq

/-- `handleCheckoutComplete(session)` (src/backend/utils/email.js): resolve
the user by `session.metadata.userId`, falling back to the
`metadata.userId` of the retrieved Stripe customer; if a user resolves,
`updateSubscription('premium', {customerId: session.customer,
subscriptionId: session.subscription})`. Errors (e.g. retrieving an
unknown customer) are caught and leave the collection unchanged. -/
def handleCheckoutComplete (p : Provider) (s : EventObject) (users : List User) :
    List User :=
  match s.metadataUserId with
  | some uid =>
    match findById users uid with
    | some u =>
      saveUser users (updateSubscription u "premium"
        { customerId := s.customer, subscriptionId := s.subscription })
    | none => users
  | none =>
    match s.customer with
    | some cid =>
      match retrieveCustomer p cid with
      | some cust =>
        match cust.metadataUserId with
        | some uid =>
          match findById users uid with
          | some u =>
            saveUser users (updateSubscription u "premium"
              { customerId := s.customer, subscriptionId := s.subscription })
          | none => users
        | none => users
      | none => users
    | none => users

/-- User resolution of `handleSubscriptionUpdate`: by `metadata.userId` when
present, otherwise by stored `stripeCustomerId`. -/
def resolveSubUser (users : List User) (s : EventObject) : Option User :=
  match s.metadataUserId with
  | some uid => findById users uid
  | none => findByCustomerId users s.customer

/-- The status mapping of `handleSubscriptionUpdate`:
`active → premium`, `canceled → cancelled`, anything else → `free`. -/
def mapSubStatus (st : Option String) : String :=
  if st == some "active" then "premium"
  else if st == some "canceled" then "cancelled"
  else "free"

/-- `handleSubscriptionUpdate(subscription)` (src/backend/utils/email.js). -/
def handleSubscriptionUpdate (s : EventObject) (users : List User) : List User :=
  match resolveSubUser users s with
  | some u =>
    saveUser users (updateSubscription u (mapSubStatus s.status)
      { subscriptionId := s.id, currentPeriodEnd := s.current_period_end })
  | none => users

/-- `handleSubscriptionDeleted(subscription)` (src/backend/utils/email.js):
find the user by stored `stripeSubscriptionId`, set status `free`, null out
`stripeSubscriptionId` and `currentPeriodEnd` by direct assignment, save. -/
def handleSubscriptionDeleted (s : EventObject) (users : List User) : List User :=
  match findBySubscriptionId users s.id with
  | some u =>
    saveUser users { u with subscription :=
      { u.subscription with
          status := "free"
          stripeSubscriptionId := none
          currentPeriodEnd := none } }
  | none => users

/-- `handlePaymentSuccess(invoice)` (src/backend/utils/email.js): if the
invoice carries a subscription, find the user by it and promote to premium
only when not already premium. -/
def handlePaymentSuccess (s : EventObject) (users : List User) : List User :=
  if truthyS s.subscription then
    match findBySubscriptionId users s.subscription with
    | some u =>
      if u.subscription.status ≠ "premium" then
        saveUser users { u with subscription :=
          { u.subscription with status := "premium" } }
      else users
    | none => users
  else users

/-- The `switch (event.type)` dispatch of the webhook route;
`invoice.payment_failed` and unknown types only log. -/
def handleEvent (p : Provider) (e : Event) (users : List User) : List User :=
  if e.type = "checkout.session.completed" then
    handleCheckoutComplete p e.object users
  else if e.type = "customer.subscription.created"
      ∨ e.type = "customer.subscription.updated" then
    handleSubscriptionUpdate e.object users
  else if e.type = "customer.subscription.deleted" then
    handleSubscriptionDeleted e.object users
  else if e.type = "invoice.payment_succeeded" then
    handlePaymentSuccess e.object users
  else
    users

/-! ## Webhook route: signature verification and dispatch

The raw request body is modelled as `Option Event`: `some e` is a body whose
JSON parse yields the event `e`, `none` a malformed body. The provider signs
the raw bytes; `hmacSig` stands in for the HMAC, computed over a rendering
of the raw body, so that distinct bodies carry distinct signatures. -/

/-- Rendering of an optional string field of the raw body. -/
def encO : Option String → String
  | none => "_"
  | some s => "v" ++ s

/-- Rendering of an optional numeric field of the raw body. -/
def encN : Option Nat → String
  | none => "_"
  | some n => toString n

/-- Rendering of the raw request body (the bytes the provider signed). -/
def encodeBody : Option Event → String
  | none => "malformed"
  | some e =>
    e.type ++ ";" ++ encO e.object.metadataUserId ++ ";" ++
    encO e.object.customer ++ ";" ++ encO e.object.subscription ++ ";" ++
    encO e.object.payment_status ++ ";" ++ encO e.object.id ++ ";" ++
    encO e.object.status ++ ";" ++ encN e.object.current_period_end

/-- Stand-in for the HMAC signature over the raw body and the shared
secret, as verified by `stripe.webhooks.constructEvent`. -/
def hmacSig (secret : String) (body : Option Event) : String :=
  secret ++ ":" ++ encodeBody body

/-- The `try` block of the webhook route: when a secret is configured,
`stripe.webhooks.constructEvent(req.body, sig, webhookSecret)` verifies the
signature and parses the body (`none` = it threw); without a secret,
`JSON.parse(req.body.toString())` (`none` = parse failure, thrown). -/
def constructEvent (cfgSecret : Option String) (sig : String)
    (body : Option Event) : Option Event :=
  match cfgSecret with
  | some secret => if sig = hmacSig secret body then body else none
  | none => body

/-- Webhook route response: `badRequest` is the 400 `Webhook Error` reply of
the catch block, `received` the 200 `{received: true}` acknowledgement. -/
inductive WebhookResp
  | badRequest
  | received
  deriving Repr, DecidableEq

/-- HTTP status code of a webhook response. -/
def WebhookResp.statusCode : WebhookResp → Nat
  | .badRequest => 400
  | .received => 200

/-- Whether the response body is the JSON `{received: true}`. -/
def WebhookResp.bodyReceivedTrue : WebhookResp → Bool
  | .badRequest => false
  | .received => true

/-- `router.post('/webhook')` (src/backend/utils/email.js): verify/parse,
then dispatch and acknowledge. -/
def webhook (cfgSecret : Option String) (p : Provider) (sig : String)
    (body : Option Event) (users : List User) : WebhookResp × List User :=
  match constructEvent cfgSecret sig body with
  | none => (.badRequest, users)
  | some e => (.received, handleEvent p e users)

/-! ## Synchronous fallback endpoints -/

/-- Response of `/verify-session`: `errorResp` models a thrown `ApiError`
(missing id, non-owner, or provider failure — all surfaced through the
catch block as a 500), `activated` the success reply, `notCompleted` the
`Payment not completed` reply. -/
inductive VerifyResp
  | errorResp
  | activated
  | notCompleted
  deriving Repr, DecidableEq

/-- Subscription id extracted in `/verify-session`:
`typeof subscription === 'string' ? subscription : subscription.id`. -/
def subRefId : SubRef → String
  | .strId s => s
  | .obj sb => sb.id

/-- Period end extracted in `/verify-session`: `null` when the subscription
is a bare string, `subscription.current_period_end` otherwise. -/
def subRefPeriodEnd : SubRef → Option Nat
  | .strId _ => none
  | .obj sb => some sb.current_period_end

/-- JS truthiness of the session's `subscription` field (an empty id string
is falsy). -/
def truthySubRef : Option SubRef → Bool
  | none => false
  | some (.strId s) => s ≠ ""
  | some (.obj _) => true

/-- `router.post('/verify-session')` (src/backend/utils/email.js): retrieve
the session, check it belongs to the caller (by `metadata.userId` or by the
stored customer ref), and if `payment_status === 'paid'` and a subscription
is present, apply `updateSubscription('premium', ...)`. -/
def verifySession (p : Provider) (sessionId : String) (u : User) :
    VerifyResp × User :=
  match retrieveSession p sessionId with
  | none => (.errorResp, u)
  | some s =>
    if s.metadataUserId ≠ some u.id ∧ s.customer ≠ u.subscription.stripeCustomerId
    then (.errorResp, u)
    else if s.payment_status = "paid" ∧ truthySubRef s.subscription then
      match s.subscription with
      | some r =>
        (.activated, updateSubscription u "premium"
          { customerId := s.customer, subscriptionId := some (subRefId r),
            currentPeriodEnd := subRefPeriodEnd r })
      | none => (.notCompleted, u)
    else (.notCompleted, u)

/-- Response of `/sync-subscription`. -/
inductive SyncResp
  | noCustomer
  | premiumSynced
  | freeSynced
  deriving Repr, DecidableEq

/-- In-memory assignment `req.user.subscription.stripeCustomerId = c.id`
performed while resolving the customer (persisted by the later save). -/
def setCustomerRef (u : User) (cid : String) : User :=
  { u with subscription := { u.subscription with stripeCustomerId := some cid } }

/-- Customer resolution of `/sync-subscription`: with no stored ref, look the
customer up by email and store the ref; with a stored ref, retrieve it,
falling back to the email lookup when the retrieve throws. -/
def resolveCustomer (p : Provider) (u : User) : Option (Customer × User) :=
  match u.subscription.stripeCustomerId with
  | none =>
    match listCustomersByEmail p u.email with
    | some c => some (c, setCustomerRef u c.id)
    | none => none
  | some cid =>
    match retrieveCustomer p cid with
    | some c => some (c, u)
    | none =>
      match listCustomersByEmail p u.email with
      | some c => some (c, setCustomerRef u c.id)
      | none => none

/-- `router.post('/sync-subscription')` (src/backend/utils/email.js): resolve
the customer, then query active subscriptions, then trialing ones, applying
`premium` for either and `free` when none is found. -/
def syncSubscription (p : Provider) (u : User) : SyncResp × User :=
  match resolveCustomer p u with
  | none => (.noCustomer, u)
  | some (c, u1) =>
    match listSubsByStatus p c.id "active" with
    | some s =>
      (.premiumSynced, updateSubscription u1 "premium"
        { customerId := some c.id, subscriptionId := some s.id,
          currentPeriodEnd := some s.current_period_end })
    | none =>
      match listSubsByStatus p c.id "trialing" with
      | some s =>
        (.premiumSynced, updateSubscription u1 "premium"
          { customerId := some c.id, subscriptionId := some s.id,
            currentPeriodEnd := some s.current_period_end })
      | none =>
        (.freeSynced, updateSubscription u1 "free" { customerId := some c.id })

/-- Response of `/create-checkout-session`: `alreadyPremium` models the
thrown 400 `ApiError`, `sessionCreated` the success reply. -/
inductive CheckoutResp
  | alreadyPremium
  | sessionCreated
  deriving Repr, DecidableEq

/-- `router.post('/create-checkout-session')` (src/backend/utils/email.js),
user-state part: reject premium users; create and store a Stripe customer
(`freshCustomerId` is the id the provider assigns) when none is stored;
the checkout-session creation itself does not touch the user. -/
def createCheckoutSession (freshCustomerId : String) (u : User) :
    CheckoutResp × User :=
  if u.subscription.status = "premium" then (.alreadyPremium, u)
  else
    match u.subscription.stripeCustomerId with
    | some _ => (.sessionCreated, u)
    | none => (.sessionCreated, setCustomerRef u freshCustomerId)

/-! ## General lemmas -/

/-- `updateSubscription` never touches the document id. -/
theorem updateSubscription_id (u : User) (st : String) (d : StripeData) :
    (updateSubscription u st d).id = u.id := rfl

/-- `updateSubscription` never touches the usage counters. -/
theorem updateSubscription_usage (u : User) (st : String) (d : StripeData) :
    (updateSubscription u st d).usage = u.usage := rfl

/-! ## Test fixtures -/

/-- A free user with no billing linkage and fresh usage. -/
def uFree : User :=
  { id := "U1", email := "u1@example.com"
    subscription := { status := "free", stripeCustomerId := none,
                      stripeSubscriptionId := none, currentPeriodEnd := none }
    usage := { questionsToday := 0, lastQuestionDate := none, totalQuestions := 0 } }

/-- A premium user linked to customer `cus_456` and subscription `sub_123`. -/
def uPrem : User :=
  { id := "U1", email := "u1@example.com"
    subscription := { status := "premium", stripeCustomerId := some "cus_456",
                      stripeSubscriptionId := some "sub_123",
                      currentPeriodEnd := some 9000 }
    usage := { questionsToday := 7, lastQuestionDate := some 1, totalQuestions := 7 } }

/-- A free user whose five questions were used up on day 0. -/
def uRoll : User :=
  { id := "U2", email := "u2@example.com"
    subscription := { status := "free", stripeCustomerId := none,
                      stripeSubscriptionId := none, currentPeriodEnd := none }
    usage := { questionsToday := 5, lastQuestionDate := some 0, totalQuestions := 5 } }

/-- A free user whose five questions were used up on day 1. -/
def uExh : User :=
  { id := "U3", email := "u3@example.com"
    subscription := { status := "free", stripeCustomerId := none,
                      stripeSubscriptionId := none, currentPeriodEnd := none }
    usage := { questionsToday := 5, lastQuestionDate := some 1, totalQuestions := 5 } }

/-! ## C4: quota gate -/

/-- C4: the quota-gate check `canAskQuestion` returns, for premium users,
`allowed = true` with unbounded remaining and no reset time regardless of
usage; for non-premium users whose `lastQuestionDate` is not the current
day, `allowed = true`, remaining = the full daily allowance, reset at the
next local midnight; and otherwise `remaining = max(0, allowance - count)`
(naturally truncated subtraction) with `allowed = remaining > 0`. -/
theorem canAskQuestion_spec (u : User) (freeLimit today : Nat) :
    (u.subscription.status = "premium" →
      canAskQuestion u freeLimit today =
        { canAsk := true, remaining := .unbounded, resetTime := none }) ∧
    (u.subscription.status ≠ "premium" →
      (u.usage.lastQuestionDate ≠ some today →
        canAskQuestion u freeLimit today =
          { canAsk := true, remaining := .fin freeLimit,
            resetTime := some (today + 1) }) ∧
      (u.usage.lastQuestionDate = some today →
        canAskQuestion u freeLimit today =
          { canAsk := decide (0 < freeLimit - u.usage.questionsToday)
            remaining := .fin (freeLimit - u.usage.questionsToday)
            resetTime := some (today + 1) })) := by
  refine ⟨fun h => ?_, fun h => ⟨fun hw => ?_, fun hw => ?_⟩⟩
  · simp [canAskQuestion, h]
  · unfold canAskQuestion
    rw [if_neg h]
    cases hlq : u.usage.lastQuestionDate with
    | none => rfl
    | some d =>
      have hd : ¬ d = today := by
        intro e
        exact hw (by rw [hlq, e])
      simp [hd]
  · unfold canAskQuestion
    rw [if_neg h, hw]
    simp

/-- Witness for C4 at concrete inputs: the premium bypass, the quota
rollover scenario (count 5, window = yesterday, allowance 5 → allowed,
remaining 5) and the exhaustion scenario (count 5 today → blocked). -/
theorem canAskQuestion_spec_witness :
    canAskQuestion uPrem 5 1 =
      { canAsk := true, remaining := .unbounded, resetTime := none } ∧
    canAskQuestion uRoll 5 1 =
      { canAsk := true, remaining := .fin 5, resetTime := some 2 } ∧
    canAskQuestion uExh 5 1 =
      { canAsk := false, remaining := .fin 0, resetTime := some 2 } := by
  refine ⟨(canAskQuestion_spec uPrem 5 1).1 (by decide), ?_, ?_⟩
  · exact ((canAskQuestion_spec uRoll 5 1).2 (by decide)).1 (by decide)
  · have h := ((canAskQuestion_spec uExh 5 1).2 (by decide)).2 (by decide)
    simpa using h

/-! ## C6: subscription deleted -/

/-- C6: a `customer.subscription.deleted` event whose subscription id
matches a user's stored `stripeSubscriptionId` sets that user's status to
`free` and nulls `stripeSubscriptionId` and `currentPeriodEnd`, leaving the
customer ref as it was. -/
theorem handleSubscriptionDeleted_spec (s : EventObject) (users : List User)
    (u : User) (h : findBySubscriptionId users s.id = some u) :
    handleSubscriptionDeleted s users =
      saveUser users { u with subscription :=
        { status := "free"
          stripeCustomerId := u.subscription.stripeCustomerId
          stripeSubscriptionId := none
          currentPeriodEnd := none } } := by
  unfold handleSubscriptionDeleted
  rw [h]

/-- Witness for C6: deleting `sub_123` for the premium user linked to it
yields status `free`, cleared subscription ref and period end, with the
customer ref still present. -/
theorem handleSubscriptionDeleted_spec_witness :
    handleSubscriptionDeleted { id := some "sub_123" } [uPrem] =
      [{ uPrem with subscription :=
        { status := "free"
          stripeCustomerId := some "cus_456"
          stripeSubscriptionId := none
          currentPeriodEnd := none } }] := by
  have h := handleSubscriptionDeleted_spec { id := some "sub_123" } [uPrem]
    uPrem (by decide)
  rw [h]
  decide

/-! ## Lemmas for idempotence -/

/-- A `find?` that succeeded before a save still succeeds after saving a
replacement document `w` that has the found document's id and itself
satisfies the predicate: it now returns `w`. -/
theorem find?_saveUser (q : User → Bool) (users : List User) (u w : User)
    (h : users.find? q = some u) (hq : q w = true) (hid : w.id = u.id) :
    (saveUser users w).find? q = some w := by
  induction users with
  | nil => simp at h
  | cons v rest ih =>
    unfold saveUser at ih ⊢
    simp only [List.map_cons]
    cases hqv : q v with
    | true =>
      rw [List.find?_cons_of_pos _ hqv] at h
      have huv : v = u := by injection h
      have hvw : (v.id == w.id) = true := by
        simp [huv, hid]
      rw [if_pos hvw]
      exact List.find?_cons_of_pos _ hq
    | false =>
      rw [List.find?_cons_of_neg _ (by simp [hqv])] at h
      by_cases hvw : (v.id == w.id) = true
      · rw [if_pos hvw]
        exact List.find?_cons_of_pos _ hq
      · rw [if_neg hvw, List.find?_cons_of_neg _ (by simp [hqv])]
        exact ih h

/-- Saving the same document twice is the same as saving it once. -/
theorem saveUser_saveUser (users : List User) (w : User) :
    saveUser (saveUser users w) w = saveUser users w := by
  unfold saveUser
  induction users with
  | nil => rfl
  | cons v rest ih =>
    simp only [List.map_cons, List.map_map] at ih ⊢
    refine congrArg₂ _ ?_ ih
    by_cases hvw : (v.id == w.id) = true
    · simp [hvw]
    · simp [hvw]

/-- `updateSubscription` with a fixed status and data is idempotent on the
document. -/
theorem updateSubscription_idem (u : User) (st : String) (d : StripeData) :
    updateSubscription (updateSubscription u st d) st d =
      updateSubscription u st d := by
  unfold updateSubscription
  by_cases h1 : truthyS d.customerId = true <;>
    by_cases h2 : truthyS d.subscriptionId = true <;>
      by_cases h3 : truthyN d.currentPeriodEnd = true <;>
        simp [h1, h2, h3]

/-- Equation lemma: the subscription-update handler on a resolved user. -/
theorem handleSubscriptionUpdate_eq_some (s : EventObject) (users : List User)
    (u : User) (h : resolveSubUser users s = some u) :
    handleSubscriptionUpdate s users =
      saveUser users (updateSubscription u (mapSubStatus s.status)
        { subscriptionId := s.id, currentPeriodEnd := s.current_period_end }) := by
  unfold handleSubscriptionUpdate
  rw [h]

/-- Equation lemma: the subscription-update handler when no user resolves. -/
theorem handleSubscriptionUpdate_eq_none (s : EventObject) (users : List User)
    (h : resolveSubUser users s = none) :
    handleSubscriptionUpdate s users = users := by
  unfold handleSubscriptionUpdate
  rw [h]

/-! ## C5: idempotence of the subscription-update handler -/

/-- C5: applying the same `subscription active` event twice through
`handleSubscriptionUpdate` leaves the collection exactly as after the first
application (in particular all four stored entitlement fields coincide). -/
theorem handleSubscriptionUpdate_idempotent (s : EventObject)
    (users : List User) (_hact : s.status = some "active") :
    handleSubscriptionUpdate s (handleSubscriptionUpdate s users) =
      handleSubscriptionUpdate s users := by
  cases hr : resolveSubUser users s with
  | none =>
    rw [handleSubscriptionUpdate_eq_none s users hr,
      handleSubscriptionUpdate_eq_none s users hr]
  | some u =>
    have hres2 : resolveSubUser
        (saveUser users (updateSubscription u (mapSubStatus s.status)
          { subscriptionId := s.id, currentPeriodEnd := s.current_period_end })) s =
        some (updateSubscription u (mapSubStatus s.status)
          { subscriptionId := s.id, currentPeriodEnd := s.current_period_end }) := by
      unfold resolveSubUser at hr ⊢
      cases hm : s.metadataUserId with
      | some uid =>
        rw [hm] at hr
        unfold findById at hr ⊢
        refine find?_saveUser _ users u _ hr ?_ rfl
        have := List.find?_some hr
        simpa using this
      | none =>
        rw [hm] at hr
        unfold findByCustomerId at hr ⊢
        refine find?_saveUser _ users u _ hr ?_ rfl
        have := List.find?_some hr
        simpa using this
    rw [handleSubscriptionUpdate_eq_some s users u hr,
      handleSubscriptionUpdate_eq_some s _ _ hres2,
      updateSubscription_idem, saveUser_saveUser]

/-- Witness for C5: a concrete `active` subscription event applied twice to
a one-user collection equals the single application. -/
theorem handleSubscriptionUpdate_idempotent_witness :
    handleSubscriptionUpdate
        { metadataUserId := some "U1", id := some "sub_123"
          status := some "active", current_period_end := some 9 }
        (handleSubscriptionUpdate
          { metadataUserId := some "U1", id := some "sub_123"
            status := some "active", current_period_end := some 9 } [uFree]) =
      handleSubscriptionUpdate
        { metadataUserId := some "U1", id := some "sub_123"
          status := some "active", current_period_end := some 9 } [uFree] :=
  handleSubscriptionUpdate_idempotent _ [uFree] rfl

/-! ## C1: subscription created/updated status mapping -/

/-- Counterexample for C1 as stated: a `trialing` subscription event does
not yield `premium` — the handler maps every status other than `active`
and `canceled` to `free`, so the resolved user ends with status `free`. -/
theorem handleSubscriptionUpdate_trialing_counterexample :
    (handleSubscriptionUpdate
        { metadataUserId := some "U1", id := some "sub_t"
          status := some "trialing", current_period_end := some 100 }
        [uFree]).map (fun u => u.subscription.status) = ["free"] ∧
      "free" ≠ "premium" := by
  constructor
  · decide
  · decide

/-- C1 (amended): for a subscription created/updated event that resolves to
a user, the handler stores `premium` when the provider status is `active`,
`cancelled` when it is `canceled`, and `free` for any other status
(including `trialing`); the subscription ref and period end carried by the
event are persisted (when truthy), and the customer ref is untouched. -/
theorem handleSubscriptionUpdate_spec (s : EventObject) (users : List User)
    (u : User) (h : resolveSubUser users s = some u) :
    ∃ w, handleSubscriptionUpdate s users = saveUser users w
      ∧ w.id = u.id
      ∧ (s.status = some "active" → w.subscription.status = "premium")
      ∧ (s.status = some "canceled" → w.subscription.status = "cancelled")
      ∧ (s.status ≠ some "active" → s.status ≠ some "canceled" →
          w.subscription.status = "free")
      ∧ (truthyS s.id = true → w.subscription.stripeSubscriptionId = s.id)
      ∧ (truthyN s.current_period_end = true →
          w.subscription.currentPeriodEnd = s.current_period_end.map (· * 1000))
      ∧ w.subscription.stripeCustomerId = u.subscription.stripeCustomerId := by
  refine ⟨updateSubscription u (mapSubStatus s.status)
    { subscriptionId := s.id, currentPeriodEnd := s.current_period_end },
    ?_, rfl, ?_, ?_, ?_, ?_, ?_, rfl⟩
  · unfold handleSubscriptionUpdate
    rw [h]
  · intro hst
    simp [updateSubscription, mapSubStatus, hst]
  · intro hst
    simp [updateSubscription, mapSubStatus, hst]
  · intro h1 h2
    simp [updateSubscription, mapSubStatus, h1, h2]
  · intro ht
    simp [updateSubscription, ht]
  · intro ht
    simp [updateSubscription, ht]

/-- Witness for C1 (amended): a concrete `active` event on the one-user
collection is stored as `premium` with ref `sub_9` and period end
`77 * 1000`. -/
theorem handleSubscriptionUpdate_spec_witness :
    ∃ w, handleSubscriptionUpdate
        { metadataUserId := some "U1", id := some "sub_9"
          status := some "active", current_period_end := some 77 }
        [uFree] = saveUser [uFree] w
      ∧ w.id = uFree.id
      ∧ w.subscription.status = "premium"
      ∧ w.subscription.stripeSubscriptionId = some "sub_9"
      ∧ w.subscription.currentPeriodEnd = some 77000 := by
  obtain ⟨w, h1, h2, h3, _, _, h6, h7, _⟩ :=
    handleSubscriptionUpdate_spec
      { metadataUserId := some "U1", id := some "sub_9"
        status := some "active", current_period_end := some 77 }
      [uFree] uFree (by decide)
  exact ⟨w, h1, h2, h3 rfl, h6 (by decide), by simpa using h7 (by decide)⟩

/-! ## C2: checkout completed -/

/-- Fixture: the Stripe customer matching user U1 by email. -/
def custU1 : Customer :=
  { id := "cus_1", email := "u1@example.com", metadataUserId := some "U1" }

/-- Fixture: an active subscription of `cus_1`. -/
def subActive : StripeSub :=
  { id := "sub_a", customer := "cus_1", status := "active", current_period_end := 500 }

/-- Fixture: a trialing subscription of `cus_1`. -/
def subTrial : StripeSub :=
  { id := "sub_t", customer := "cus_1", status := "trialing", current_period_end := 600 }

/-- C3: the manual sync resolves the billing customer by email when no ref
is stored (storing the ref on the user), then queries active-then-trialing
subscriptions: an active one yields `premium`, else a trialing one yields
`premium`, and otherwise the entitlement is set to `free`. -/
theorem syncSubscription_spec :
    (∀ (p : Provider) (u : User), u.subscription.stripeCustomerId = none →
      resolveCustomer p u =
        (listCustomersByEmail p u.email).map (fun c => (c, setCustomerRef u c.id))) ∧
    (∀ (p : Provider) (u : User) (c : Customer) (u1 : User),
      resolveCustomer p u = some (c, u1) →
      (∀ s, listSubsByStatus p c.id "active" = some s →
        syncSubscription p u = (.premiumSynced, updateSubscription u1 "premium"
          { customerId := some c.id, subscriptionId := some s.id
            currentPeriodEnd := some s.current_period_end })) ∧
      (listSubsByStatus p c.id "active" = none →
        ∀ s, listSubsByStatus p c.id "trialing" = some s →
        syncSubscription p u = (.premiumSynced, updateSubscription u1 "premium"
          { customerId := some c.id, subscriptionId := some s.id
            currentPeriodEnd := some s.current_period_end })) ∧
      (listSubsByStatus p c.id "active" = none →
        listSubsByStatus p c.id "trialing" = none →
        syncSubscription p u = (.freeSynced, updateSubscription u1 "free"
          { customerId := some c.id }))) := by
  constructor
  · intro p u h
    simp only [resolveCustomer, h]
    cases hc : listCustomersByEmail p u.email <;> simp [hc]
  · intro p u c u1 hres
    refine ⟨fun s hact => ?_, fun hact s htr => ?_, fun hact htr => ?_⟩
    · simp only [syncSubscription, hres, hact]
    · simp only [syncSubscription, hres, hact, htr]
    · simp only [syncSubscription, hres, hact, htr]

/-- Witness for C3: user U1 with no stored ref resolves `cus_1` by email;
with an active subscription the sync stores `premium`, with only a trialing
one `premium`, and with none `free` — while the resolved customer ref is
persisted. -/
theorem syncSubscription_spec_witness :
    (syncSubscription { customers := [custU1], subs := [subActive], sessions := [] }
        uFree).2.subscription.status = "premium" ∧
    (syncSubscription { customers := [custU1], subs := [subTrial], sessions := [] }
        uFree).2.subscription.status = "premium" ∧
    (syncSubscription { customers := [custU1], subs := [], sessions := [] }
        uFree).2.subscription.status = "free" ∧
    (syncSubscription { customers := [custU1], subs := [], sessions := [] }
        uFree).2.subscription.stripeCustomerId = some "cus_1" := by
  have hres : resolveCustomer { customers := [custU1], subs := [], sessions := [] }
      uFree = some (custU1, setCustomerRef uFree "cus_1") := by
    rw [syncSubscription_spec.1 _ uFree (by decide)]
    decide
  refine ⟨?_, ?_, ?_, ?_⟩
  · rw [(syncSubscription_spec.2
      { customers := [custU1], subs := [subActive], sessions := [] }
      uFree custU1 (setCustomerRef uFree "cus_1") (by decide)).1
      subActive (by decide)]
    decide
  · rw [(syncSubscription_spec.2
      { customers := [custU1], subs := [subTrial], sessions := [] }
      uFree custU1 (setCustomerRef uFree "cus_1") (by decide)).2.1
      (by decide) subTrial (by decide)]
    decide
  · rw [(syncSubscription_spec.2
      { customers := [custU1], subs := [], sessions := [] }
      uFree custU1 (setCustomerRef uFree "cus_1") hres).2.2
      (by decide) (by decide)]
    decide
  · rw [(syncSubscription_spec.2
      { customers := [custU1], subs := [], sessions := [] }
      uFree custU1 (setCustomerRef uFree "cus_1") hres).2.2
      (by decide) (by decide)]
    decide

/-! ## C7: bad webhook signature -/

/-- C7: with a signing secret configured, a webhook request whose signature
does not validate against the raw body is answered with HTTP 400 and the
body is never dispatched — no user is mutated. -/
theorem webhook_bad_signature_spec (p : Provider) (secret sig : String)
    (body : Option Event) (users : List User)
    (hsig : sig ≠ hmacSig secret body) :
    webhook (some secret) p sig body users = (.badRequest, users) ∧
    (webhook (some secret) p sig body users).1.statusCode = 400 := by
  have h : constructEvent (some secret) sig body = none := by
    simp [constructEvent, hsig]
  constructor
  · simp only [webhook, h]
  · simp only [webhook, h]
    rfl

/-- Witness for C7: a body signed with the secret and then tampered with
(its subscription status flipped) fails verification, yielding 400 and an
untouched collection. -/
theorem webhook_bad_signature_spec_witness :
    webhook (some "whsec_test")
        { customers := [], subs := [], sessions := [] }
        (hmacSig "whsec_test" (some
          { type := "customer.subscription.updated"
            object := { metadataUserId := some "U1", status := some "canceled" } }))
        (some { type := "customer.subscription.updated"
                object := { metadataUserId := some "U1", status := some "active" } })
        [uFree] =
      (.badRequest, [uFree]) :=
  (webhook_bad_signature_spec
    { customers := [], subs := [], sessions := [] } "whsec_test"
    (hmacSig "whsec_test" (some
      { type := "customer.subscription.updated"
        object := { metadataUserId := some "U1", status := some "canceled" } }))
    (some { type := "customer.subscription.updated"
            object := { metadataUserId := some "U1", status := some "active" } })
    [uFree] (by decide)).1

/-! ## C8: acknowledged no-op events -/

/-- The event types the webhook switch handles. -/
def handledTypes : List String :=
  ["checkout.session.completed", "customer.subscription.created",
   "customer.subscription.updated", "customer.subscription.deleted",
   "invoice.payment_succeeded", "invoice.payment_failed"]

/-- User resolution of `handleCheckoutComplete`, factored from the handler:
by `session.metadata.userId`, falling back to the `metadata.userId` of the
retrieved Stripe customer. -/
def resolveCheckoutUser (p : Provider) (s : EventObject) (users : List User) :
    Option User :=
  match s.metadataUserId with
  | some uid => findById users uid
  | none =>
    match s.customer with
    | some cid =>
      match retrieveCustomer p cid with
      | some cust =>
        match cust.metadataUserId with
        | some uid => findById users uid
        | none => none
      | none => none
    | none => none

/-- User resolution of `handlePaymentSuccess`, factored from the handler:
lookup by the invoice's subscription id, guarded by its truthiness. -/
def resolveInvoiceUser (s : EventObject) (users : List User) : Option User :=
  if truthyS s.subscription then findBySubscriptionId users s.subscription
  else none

/-- The checkout handler is a no-op when its resolution finds no user. -/
theorem handleCheckoutComplete_eq_noresolve (p : Provider) (s : EventObject)
    (users : List User) (h : resolveCheckoutUser p s users = none) :
    handleCheckoutComplete p s users = users := by
  cases hm : s.metadataUserId with
  | some uid =>
    simp only [resolveCheckoutUser, hm] at h
    simp only [handleCheckoutComplete, hm, h]
  | none =>
    cases hc : s.customer with
    | none => simp only [handleCheckoutComplete, hm, hc]
    | some cid =>
      cases hrc : retrieveCustomer p cid with
      | none => simp only [handleCheckoutComplete, hm, hc, hrc]
      | some cust =>
        cases hcm : cust.metadataUserId with
        | none => simp only [handleCheckoutComplete, hm, hc, hrc, hcm]
        | some uid2 =>
          simp only [resolveCheckoutUser, hm, hc, hrc, hcm] at h
          simp only [handleCheckoutComplete, hm, hc, hrc, hcm, h]

/-- The deletion handler is a no-op when no user carries the event's
subscription id. -/
theorem handleSubscriptionDeleted_eq_none (s : EventObject)
    (users : List User) (h : findBySubscriptionId users s.id = none) :
    handleSubscriptionDeleted s users = users := by
  simp only [handleSubscriptionDeleted, h]

/-- The payment-success handler is a no-op when its resolution finds no
user. -/
theorem handlePaymentSuccess_eq_noresolve (s : EventObject)
    (users : List User) (h : resolveInvoiceUser s users = none) :
    handlePaymentSuccess s users = users := by
  by_cases ht : truthyS s.subscription = true
  · simp only [resolveInvoiceUser, ht, if_true] at h
    simp only [handlePaymentSuccess, ht, if_true, h]
  · unfold handlePaymentSuccess
    rw [if_neg ht]

/-- C8: a webhook event of an unknown type, or any supported event that
resolves to no user — a checkout completion whose session matches no user,
a subscription created/updated naming an unknown customer, a subscription
deletion or an invoice payment success naming a subscription stored on no
user, or an invoice payment failure (which never mutates) — is acknowledged
with HTTP 200 and body `{received: true}` while mutating zero users. -/
theorem webhook_ack_noop_spec (cfg : Option String) (p : Provider)
    (sig : String) (body : Option Event) (users : List User) (e : Event)
    (h : constructEvent cfg sig body = some e)
    (h2 : e.type ∉ handledTypes ∨
      (e.type = "checkout.session.completed" ∧
        resolveCheckoutUser p e.object users = none) ∨
      ((e.type = "customer.subscription.created" ∨
        e.type = "customer.subscription.updated") ∧
        resolveSubUser users e.object = none) ∨
      (e.type = "customer.subscription.deleted" ∧
        findBySubscriptionId users e.object.id = none) ∨
      (e.type = "invoice.payment_succeeded" ∧
        resolveInvoiceUser e.object users = none) ∨
      e.type = "invoice.payment_failed") :
    webhook cfg p sig body users = (.received, users) ∧
    (webhook cfg p sig body users).1.statusCode = 200 ∧
    (webhook cfg p sig body users).1.bodyReceivedTrue = true := by
  have hh : handleEvent p e users = users := by
    rcases h2 with h3 | ⟨ht, hres⟩ | ⟨htype, hres⟩ | ⟨ht, hres⟩ | ⟨ht, hres⟩ | ht
    · simp only [handledTypes, List.mem_cons, List.mem_singleton, not_or] at h3
      obtain ⟨n1, n2, n3, n4, n5, _⟩ := h3
      unfold handleEvent
      rw [if_neg n1, if_neg (not_or.mpr ⟨n2, n3⟩), if_neg n4, if_neg n5]
    · unfold handleEvent
      rw [ht, if_pos rfl]
      exact handleCheckoutComplete_eq_noresolve p e.object users hres
    · have n1 : e.type ≠ "checkout.session.completed" := by
        rcases htype with h' | h' <;> rw [h'] <;> decide
      unfold handleEvent
      rw [if_neg n1, if_pos htype]
      exact handleSubscriptionUpdate_eq_none _ _ hres
    · unfold handleEvent
      rw [ht, if_neg (by decide), if_neg (by decide), if_pos rfl]
      exact handleSubscriptionDeleted_eq_none e.object users hres
    · unfold handleEvent
      rw [ht, if_neg (by decide), if_neg (by decide), if_neg (by decide),
        if_pos rfl]
      exact handlePaymentSuccess_eq_noresolve e.object users hres
    · unfold handleEvent
      rw [ht, if_neg (by decide), if_neg (by decide), if_neg (by decide),
        if_neg (by decide)]
  refine ⟨?_, ?_, ?_⟩ <;> simp only [webhook, h, hh] <;> rfl

/-- Witness for C8: an unknown event type (`invoice.created`), a
subscription update naming a customer present on no user, a checkout
completion matching no user, and a deletion naming a subscription stored on
no user are all acknowledged unchanged. -/
theorem webhook_ack_noop_spec_witness :
    webhook none { customers := [], subs := [], sessions := [] } ""
        (some { type := "invoice.created", object := {} }) [uFree] =
      (.received, [uFree]) ∧
    webhook none { customers := [], subs := [], sessions := [] } ""
        (some { type := "customer.subscription.updated"
                object := { customer := some "cus_unknown", id := some "sub_x"
                            status := some "active" } }) [uPrem] =
      (.received, [uPrem]) ∧
    webhook none { customers := [], subs := [], sessions := [] } ""
        (some { type := "checkout.session.completed"
                object := { customer := some "cus_unknown"
                            payment_status := some "paid" } }) [uPrem] =
      (.received, [uPrem]) ∧
    webhook none { customers := [], subs := [], sessions := [] } ""
        (some { type := "customer.subscription.deleted"
                object := { id := some "sub_unknown" } }) [uPrem] =
      (.received, [uPrem]) := by
  refine ⟨?_, ?_, ?_, ?_⟩
  · exact (webhook_ack_noop_spec none
      { customers := [], subs := [], sessions := [] } ""
      (some { type := "invoice.created", object := {} }) [uFree]
      { type := "invoice.created", object := {} } rfl
      (Or.inl (by decide))).1
  · exact (webhook_ack_noop_spec none
      { customers := [], subs := [], sessions := [] } ""
      (some { type := "customer.subscription.updated"
              object := { customer := some "cus_unknown", id := some "sub_x"
                          status := some "active" } }) [uPrem]
      { type := "customer.subscription.updated"
        object := { customer := some "cus_unknown", id := some "sub_x"
                    status := some "active" } } rfl
      (Or.inr (Or.inr (Or.inl ⟨Or.inr rfl, by decide⟩)))).1
  · exact (webhook_ack_noop_spec none
      { customers := [], subs := [], sessions := [] } ""
      (some { type := "checkout.session.completed"
              object := { customer := some "cus_unknown"
                          payment_status := some "paid" } }) [uPrem]
      { type := "checkout.session.completed"
        object := { customer := some "cus_unknown"
                    payment_status := some "paid" } } rfl
      (Or.inr (Or.inl ⟨rfl, by decide⟩))).1
  · exact (webhook_ack_noop_spec none
      { customers := [], subs := [], sessions := [] } ""
      (some { type := "customer.subscription.deleted"
              object := { id := some "sub_unknown" } }) [uPrem]
      { type := "customer.subscription.deleted"
        object := { id := some "sub_unknown" } } rfl
      (Or.inr (Or.inr (Or.inr (Or.inl ⟨rfl, by decide⟩))))).1

/-! ## C10: webhook without a configured secret -/

/-- C10: with no signing secret configured, the webhook endpoint performs no
signature verification — any well-formed body is parsed and dispatched to
the event handlers as authentic, whatever the signature header says; the
400 branch is unreachable for well-formed bodies. -/
theorem webhook_no_secret_spec (p : Provider) (sig : String) (e : Event)
    (users : List User) :
    webhook none p sig (some e) users = (.received, handleEvent p e users) ∧
    (webhook none p sig (some e) users).1.statusCode = 200 := by
  constructor
  · simp [webhook, constructEvent]
  · simp [webhook, constructEvent]
    rfl

/-! ## C9: the customer ref, once set, is never cleared -/

/-- Relation between a stored user document and its successor after an
operation: same id, and a non-null `stripeCustomerId` stays non-null. -/
def custPreserved (u u' : User) : Prop :=
  u.id = u'.id ∧
    (u.subscription.stripeCustomerId ≠ none →
      u'.subscription.stripeCustomerId ≠ none)

instance (u u' : User) : Decidable (custPreserved u u') := by
  unfold custPreserved
  infer_instance

/-- Document ids are unique in the collection (Mongo `_id`). -/
def uniqueIds (users : List User) : Prop :=
  (users.map (fun u => u.id)).Nodup

instance (users : List User) : Decidable (uniqueIds users) := by
  unfold uniqueIds
  infer_instance

theorem custPreserved_refl (u : User) : custPreserved u u :=
  ⟨rfl, fun h => h⟩

theorem custPreserved_trans {a b c : User} (h1 : custPreserved a b)
    (h2 : custPreserved b c) : custPreserved a c :=
  ⟨h1.1.trans h2.1, fun h => h2.2 (h1.2 h)⟩

theorem forall₂_custPreserved_refl (users : List User) :
    List.Forall₂ custPreserved users users := by
  induction users with
  | nil => exact .nil
  | cons v rest ih => exact .cons (custPreserved_refl v) ih

/-- Saving a document whose id matches nothing in the collection leaves the
collection unchanged. -/
theorem saveUser_of_ne (users : List User) (w : User)
    (h : ∀ x ∈ users, x.id ≠ w.id) : saveUser users w = users := by
  induction users with
  | nil => rfl
  | cons v rest ih =>
    unfold saveUser at ih ⊢
    simp only [List.map_cons]
    have hv : (v.id == w.id) = false := by
      simp [h v (List.mem_cons_self v rest)]
    rw [hv]
    simp only [Bool.false_eq_true, if_false]
    rw [ih (fun x hx => h x (List.mem_cons_of_mem v hx))]

/-- Key step: saving a replacement `w` for a member `u` (same id,
`custPreserved u w`) relates the old and new collections pointwise, given
unique ids. -/
theorem forall₂_saveUser (users : List User) (u w : User)
    (hq : uniqueIds users) (hu : u ∈ users) (hid : w.id = u.id)
    (hpres : custPreserved u w) :
    List.Forall₂ custPreserved users (saveUser users w) := by
  induction users with
  | nil => cases hu
  | cons v rest ih =>
    obtain ⟨hnm, hnd⟩ := List.nodup_cons.mp hq
    rcases List.mem_cons.mp hu with rfl | hu'
    · have hcond : (u.id == w.id) = true := by simp [hid]
      unfold saveUser
      simp only [List.map_cons, hcond, if_true]
      refine .cons hpres ?_
      have : saveUser rest w = rest := by
        refine saveUser_of_ne rest w (fun x hx hxe => hnm ?_)
        rw [hid] at hxe
        simpa [hxe] using List.mem_map_of_mem (fun u => u.id) hx
      unfold saveUser at this
      rw [this]
      exact forall₂_custPreserved_refl rest
    · have hvne : (v.id == w.id) = false := by
        have hne : v.id ≠ u.id := by
          intro he
          refine hnm ?_
          simpa [he] using List.mem_map_of_mem (fun u => u.id) hu'
        simp [hid]
        exact fun he => hne he
      unfold saveUser
      simp only [List.map_cons, hvne, Bool.false_eq_true, if_false]
      refine .cons (custPreserved_refl v) ?_
      have := ih hnd hu'
      unfold saveUser at this
      exact this

/-- `updateSubscription` preserves the customer-ref invariant: the stored
`stripeCustomerId` is either overwritten with a supplied (non-null) value or
left as it was. -/
theorem custPreserved_update (u : User) (st : String) (d : StripeData) :
    custPreserved u (updateSubscription u st d) := by
  refine ⟨rfl, fun h => ?_⟩
  by_cases hc : truthyS d.customerId = true
  · obtain ⟨s, hs⟩ : ∃ s, d.customerId = some s := by
      cases hdc : d.customerId with
      | none => rw [hdc] at hc; simp [truthyS] at hc
      | some s => exact ⟨s, rfl⟩
    rw [hs] at hc
    simp [updateSubscription, hs, hc]
  · simp only [updateSubscription, hc, if_false, Bool.false_eq_true]
    exact h

/-- Convenience: saving an `updateSubscription` of a member preserves the
whole collection pointwise. -/
theorem forall₂_save_update (users : List User) (u : User) (st : String)
    (d : StripeData) (hq : uniqueIds users) (hu : u ∈ users) :
    List.Forall₂ custPreserved users
      (saveUser users (updateSubscription u st d)) :=
  forall₂_saveUser users u _ hq hu rfl (custPreserved_update u st d)

/-- The resolved user of `handleSubscriptionUpdate` is a member. -/
theorem resolveSubUser_mem (users : List User) (s : EventObject) (u : User)
    (h : resolveSubUser users s = some u) : u ∈ users := by
  unfold resolveSubUser at h
  cases hm : s.metadataUserId <;> rw [hm] at h
  · unfold findByCustomerId at h
    exact List.mem_of_find?_eq_some h
  · unfold findById at h
    exact List.mem_of_find?_eq_some h

theorem forall₂_handleCheckoutComplete (p : Provider) (s : EventObject)
    (users : List User) (hq : uniqueIds users) :
    List.Forall₂ custPreserved users (handleCheckoutComplete p s users) := by
  unfold handleCheckoutComplete
  split
  · split
    · rename_i u heq
      refine forall₂_save_update users u _ _ hq ?_
      unfold findById at heq
      exact List.mem_of_find?_eq_some heq
    · exact forall₂_custPreserved_refl users
  · split
    · split
      · split
        · split
          · rename_i u heq
            refine forall₂_save_update users u _ _ hq ?_
            unfold findById at heq
            exact List.mem_of_find?_eq_some heq
          · exact forall₂_custPreserved_refl users
        · exact forall₂_custPreserved_refl users
      · exact forall₂_custPreserved_refl users
    · exact forall₂_custPreserved_refl users

theorem forall₂_handleSubscriptionUpdate (s : EventObject)
    (users : List User) (hq : uniqueIds users) :
    List.Forall₂ custPreserved users (handleSubscriptionUpdate s users) := by
  unfold handleSubscriptionUpdate
  split
  · rename_i u heq
    exact forall₂_save_update users u _ _ hq (resolveSubUser_mem users s u heq)
  · exact forall₂_custPreserved_refl users

theorem forall₂_handleSubscriptionDeleted (s : EventObject)
    (users : List User) (hq : uniqueIds users) :
    List.Forall₂ custPreserved users (handleSubscriptionDeleted s users) := by
  unfold handleSubscriptionDeleted
  split
  · rename_i u heq
    refine forall₂_saveUser users u _ hq ?_ rfl ⟨rfl, fun h => h⟩
    unfold findBySubscriptionId at heq
    exact List.mem_of_find?_eq_some heq
  · exact forall₂_custPreserved_refl users

theorem forall₂_handlePaymentSuccess (s : EventObject)
    (users : List User) (hq : uniqueIds users) :
    List.Forall₂ custPreserved users (handlePaymentSuccess s users) := by
  unfold handlePaymentSuccess
  split
  · split
    · rename_i u heq
      split
      · refine forall₂_saveUser users u _ hq ?_ rfl ⟨rfl, fun h => h⟩
        unfold findBySubscriptionId at heq
        exact List.mem_of_find?_eq_some heq
      · exact forall₂_custPreserved_refl users
    · exact forall₂_custPreserved_refl users
  · exact forall₂_custPreserved_refl users

theorem forall₂_handleEvent (p : Provider) (e : Event) (users : List User)
    (hq : uniqueIds users) :
    List.Forall₂ custPreserved users (handleEvent p e users) := by
  unfold handleEvent
  split
  · exact forall₂_handleCheckoutComplete p e.object users hq
  · split
    · exact forall₂_handleSubscriptionUpdate e.object users hq
    · split
      · exact forall₂_handleSubscriptionDeleted e.object users hq
      · split
        · exact forall₂_handlePaymentSuccess e.object users hq
        · exact forall₂_custPreserved_refl users

/-- The resolved customer step of the sync endpoint only ever writes a
non-null customer ref onto the user it returns. -/
theorem custPreserved_resolveCustomer (p : Provider) (u : User)
    (c : Customer) (u1 : User) (h : resolveCustomer p u = some (c, u1)) :
    custPreserved u u1 := by
  unfold resolveCustomer at h
  split at h
  · split at h
    · simp only [Option.some.injEq, Prod.mk.injEq] at h
      rw [← h.2]
      exact ⟨rfl, fun _ => by simp [setCustomerRef]⟩
    · cases h
  · split at h
    · simp only [Option.some.injEq, Prod.mk.injEq] at h
      rw [← h.2]
      exact custPreserved_refl u
    · split at h
      · simp only [Option.some.injEq, Prod.mk.injEq] at h
        rw [← h.2]
        exact ⟨rfl, fun _ => by simp [setCustomerRef]⟩
      · cases h

/-- C9: no operation of the subsystem — webhook processing (all five
handlers), `/verify-session`, `/sync-subscription`,
`/create-checkout-session`, or `updateSubscription` itself — ever clears a
non-null `stripeCustomerId`; in particular the subscription-deleted
transition clears the subscription ref and period end but keeps the
customer ref. -/
theorem billing_customer_ref_never_cleared :
    (∀ (cfg : Option String) (p : Provider) (sig : String)
        (body : Option Event) (users : List User), uniqueIds users →
      List.Forall₂ custPreserved users (webhook cfg p sig body users).2) ∧
    (∀ (p : Provider) (sid : String) (u : User),
      custPreserved u (verifySession p sid u).2) ∧
    (∀ (p : Provider) (u : User), custPreserved u (syncSubscription p u).2) ∧
    (∀ (fid : String) (u : User),
      custPreserved u (createCheckoutSession fid u).2) ∧
    (∀ (u : User) (st : String) (d : StripeData),
      custPreserved u (updateSubscription u st d)) := by
  refine ⟨?_, ?_, ?_, ?_, ?_⟩
  · intro cfg p sig body users hq
    unfold webhook
    split
    · exact forall₂_custPreserved_refl users
    · rename_i e _
      exact forall₂_handleEvent p e users hq
  · intro p sid u
    unfold verifySession
    split
    · exact custPreserved_refl u
    · split
      · exact custPreserved_refl u
      · split
        · split
          · exact custPreserved_update u _ _
          · exact custPreserved_refl u
        · exact custPreserved_refl u
  · intro p u
    unfold syncSubscription
    split
    · exact custPreserved_refl u
    · rename_i c u1 heq
      have h1 := custPreserved_resolveCustomer p u c u1 heq
      split
      · exact custPreserved_trans h1 (custPreserved_update u1 _ _)
      · split
        · exact custPreserved_trans h1 (custPreserved_update u1 _ _)
        · exact custPreserved_trans h1 (custPreserved_update u1 _ _)
  · intro fid u
    unfold createCheckoutSession
    split
    · exact custPreserved_refl u
    · split
      · exact custPreserved_refl u
      · exact ⟨rfl, fun _ => by simp [setCustomerRef]⟩
  · intro u st d
    exact custPreserved_update u st d

/-- Witness for C9: processing the subscription-deleted webhook for
`sub_123` against the premium user preserves the relation, and concretely
the stored customer ref is still `cus_456` afterwards. -/
theorem billing_customer_ref_never_cleared_witness :
    List.Forall₂ custPreserved [uPrem]
      (webhook none { customers := [], subs := [], sessions := [] } ""
        (some { type := "customer.subscription.deleted"
                object := { id := some "sub_123" } }) [uPrem]).2 ∧
    (webhook none { customers := [], subs := [], sessions := [] } ""
        (some { type := "customer.subscription.deleted"
                object := { id := some "sub_123" } }) [uPrem]).2.map
      (fun u => u.subscription.stripeCustomerId) = [some "cus_456"] := by
  constructor
  · exact billing_customer_ref_never_cleared.1 none
      { customers := [], subs := [], sessions := [] } ""
      (some { type := "customer.subscription.deleted"
              object := { id := some "sub_123" } }) [uPrem] (by decide)
  · decide

end ScriptureChat
